import Mathlib

/-!
Shallow embedding of `src/app.py` (a Flask TikTok-downloader front-end):
the file-based response cache (`get_cached`, `save_cache`), the stale-file
reaper (`cleanup_old_files`), the extraction pipeline (`download_tiktok`,
its inner `format_num` counter formatter), the bounded worker dispatch
(thread + 25 s join used by the `index` POST handler), and the input
validation of the POST handler.

Modelling conventions:
* Wall-clock time is `Nat` seconds.  Python compares floats with strict
  `<`; over `Nat` the truncated subtraction gives the same verdicts for
  timestamps that are not in the future, and treats future timestamps as
  age 0 exactly as Python's negative ages do.
* The MD5 fingerprint `hashlib.md5(url.encode()).hexdigest()` is an
  external library call; the model abstracts it as a function parameter
  `hash : String → String` (only its determinism is used by the code).
* The cache directory is a finite map from fingerprint to on-disk entry;
  an entry carries its mtime and either a parseable record (`good`) or
  unparseable/unreadable bytes (`corrupt`, which makes `json.load` raise).
* The download directory is a list of files in `os.listdir` order; each
  file carries the flag `removeFails` telling whether `os.remove` on it
  raises (permission error etc.).
* I/O nondeterminism that the code meets with `try/except` is made
  explicit: `writeOk` for the cache write, `removeFails` per file, and the
  extraction outcome (`ok info` / `fail msg`) for `ydl.extract_info`.
-/

namespace TikTokApp

/-- Python `f"{x:.1f}"` prints the value rounded to one decimal digit.
`rhe a b` is the numerator of that rendering for the exact rational
`a / b`: round to nearest, ties to even, which is what IEEE formatting
produces whenever the tie is exactly representable (CPython's `.1f` on a
double rounds the double's exact value, ties to even). -/
def rhe (a b : Nat) : Nat :=
  let q := a / b
  let r := a % b
  if 2 * r < b then q
  else if b < 2 * r then q + 1
  else if q % 2 = 0 then q else q + 1

/-- Render a number of tenths as a one-decimal string, e.g. `15 ↦ "1.5"`,
`230 ↦ "23.0"` — the shape produced by Python's `f"{x:.1f}"`. -/
def fmt1 (tenths : Nat) : String :=
  toString (tenths / 10) ++ "." ++ toString (tenths % 10)

/-- Argument of `format_num`: `int(num)` either succeeds (any int-convertible
value, including the default `0` used for a missing counter) or raises
(non-numeric input). -/
inductive FNum where
  | ofInt (n : Int)
  | nonNumeric
  deriving DecidableEq

/-- `format_num` from `download_tiktok` (src/app.py lines 121-130):

    num = int(num)
    if num >= 1000000: return f"{num/1000000:.1f}Jt"
    elif num >= 1000:  return f"{num/1000:.1f}K"
    return str(num)
    except: return "0"

Note the million suffix in the source is `"Jt"` (Indonesian `juta`). -/
def format_num : FNum → String
  | .nonNumeric => "0"
  | .ofInt n =>
    if 1000000 ≤ n then fmt1 (rhe (n.toNat * 10) 1000000) ++ "Jt"
    else if 1000 ≤ n then fmt1 (rhe (n.toNat * 10) 1000) ++ "K"
    else toString n

/-- The result record rendered into the page and stored in the cache:
either the success payload built by `download_tiktok` or the error payload
`{"error": ...}`. Both are non-empty Python dicts, hence truthy, so
`if cached:` on a record is a pure presence test. -/
inductive Record where
  | success (title : String) (duration : Nat) (uploader : String)
      (like_count comment_count repost_count view_count : String)
      (thumbnail : Option String) (file : String)
  | error (msg : String)
  deriving DecidableEq

/-- A cache file's parse status: `good r` when `json.load` yields the
record `r`, `corrupt` when reading or parsing raises. -/
inductive CacheContent where
  | good (r : Record)
  | corrupt
  deriving DecidableEq

/-- One on-disk cache file `cache/{fingerprint}.json`: its last-write time
(`os.path.getmtime`) and its content. -/
structure CacheEntry where
  mtime : Nat
  content : CacheContent
  deriving DecidableEq

/-- One file of the download directory, in `os.listdir` order; `removeFails`
models `os.remove` raising on this particular file. -/
structure DFile where
  name : String
  mtime : Nat
  removeFails : Bool
  deriving DecidableEq

/-- The filesystem state the app reads and writes: the cache directory
(keyed by fingerprint) and the download directory. -/
structure DState where
  cache : String → Option CacheEntry
  downloads : List DFile

end TikTokApp

namespace TikTokApp

/-- `get_cached` (src/app.py lines 32-45): hash the URL, and if the cache
file exists and is younger than 1800 s, try to parse it; any read/parse
failure falls through to `return None`. -/
def get_cached (hash : String → String) (now : Nat) (st : DState)
    (url : String) : Option Record :=
  match st.cache (hash url) with
  | none => none
  | some e =>
    if now - e.mtime < 1800 then
      match e.content with
      | .good r => some r
      | .corrupt => none
    else none

/-- `save_cache` (src/app.py lines 47-56): hash the URL and write the
serialized record, overwriting any prior entry; `writeOk = false` models
the `open`/`json.dump` raising, which the code logs and swallows. -/
def save_cache (hash : String → String) (now : Nat) (writeOk : Bool)
    (st : DState) (url : String) (r : Record) : DState :=
  if writeOk then
    { st with cache := fun k =>
        if k = hash url then some ⟨now, .good r⟩ else st.cache k }
  else st

/-- The `for filename in os.listdir(DOWNLOAD_DIR)` loop of
`cleanup_old_files`: remove every file with `getmtime < now - 3600`.  The
`try` wraps the whole loop, so the first failing `os.remove` raises out of
the loop and every file from that point on (the failing one included) is
left in place. -/
def cleanupLoop (now : Nat) : List DFile → List DFile
  | [] => []
  | f :: rest =>
    if f.mtime < now - 3600 then
      if f.removeFails then f :: rest
      else cleanupLoop now rest
    else f :: cleanupLoop now rest

/-- `cleanup_old_files` (src/app.py lines 59-69). -/
def cleanup_old_files (now : Nat) (st : DState) : DState :=
  { st with downloads := cleanupLoop now st.downloads }

/-- The metadata bundle returned by `ydl.extract_info`; each field models
the corresponding `info.get(...)` key (`none` = key absent).  An element of
`thumbnails` is that candidate's `url` key, `none` when the dict lacks it. -/
structure Info where
  title : Option String
  duration : Option Nat
  uploader : Option String
  like_count : Option FNum
  comment_count : Option FNum
  repost_count : Option FNum
  view_count : Option FNum
  thumbnail : Option String
  thumbnails : List (Option String)

/-- Thumbnail selection of `download_tiktok` (lines 113-118):
`info.get('thumbnail')`, and if that is falsy (absent or empty string) and
the candidate list is non-empty, the last candidate's `url` key. -/
def pickThumbnail (info : Info) : Option String :=
  match info.thumbnail with
  | some t =>
    if t.isEmpty then
      match info.thumbnails.getLast? with
      | some u => u
      | none => some t
    else some t
  | none =>
    match info.thumbnails.getLast? with
    | some u => u
    | none => none

/-- The `data` dict built on a successful extraction (lines 132-143). -/
def buildData (info : Info) (filename : String) : Record :=
  .success ((info.title.getD "Video TikTok").take 100)
    (info.duration.getD 0)
    (info.uploader.getD "TikTok User")
    (format_num (info.like_count.getD (.ofInt 0)))
    (format_num (info.comment_count.getD (.ofInt 0)))
    (format_num (info.repost_count.getD (.ofInt 0)))
    (format_num (info.view_count.getD (.ofInt 0)))
    (pickThumbnail info)
    filename

/-- Outcome of the `ydl.extract_info(url, download=True)` call:
success with a metadata bundle, or an exception with message `msg`. -/
inductive ExtractOutcome where
  | ok (info : Info)
  | fail (msg : String)

/-- The environment of one extraction attempt: what the external library
does (`outcome`), the fresh `f"{uuid.uuid4()}.mp4"` name, and whether the
cache write succeeds. -/
structure ExtractEnv where
  outcome : ExtractOutcome
  newFilename : String
  writeOk : Bool

/-- `download_tiktok` (src/app.py lines 72-156): cache hit returns the
cached record untouched; on a miss, a successful extraction writes the
media file, builds `data`, runs `cleanup_old_files()`, saves the cache and
returns `data`; an exception anywhere in the `try` skips cleanup and cache
write and returns the truncated error record. -/
def download_tiktok (hash : String → String) (now : Nat) (env : ExtractEnv)
    (st : DState) (url : String) : Record × DState :=
  match get_cached hash now st url with
  | some cached => (cached, st)
  | none =>
    match env.outcome with
    | .fail msg => (.error ("Error: " ++ msg.take 100), st)
    | .ok info =>
      let data := buildData info env.newFilename
      let st1 : DState :=
        { st with downloads := ⟨env.newFilename, now, false⟩ :: st.downloads }
      let st2 := cleanup_old_files now st1
      let st3 := save_cache hash now env.writeOk st2 url data
      (data, st3)

/-- The response the handler thread gets and the state once the worker
thread has run to completion. -/
structure DispatchOutcome where
  response : Record
  final : DState

/-- The dispatch in `index` (lines 179-187): start `download_in_thread` on
a `Thread`, `join(timeout=25)`, then `get_nowait()`; if the queue is still
empty the handler answers with the timeout record.  `dur` is the wall-clock
duration of the extraction; `Thread.join` with a timeout never cancels the
thread, so `final` carries the worker's writes in both branches — they just
become observable to later requests only. -/
def dispatch (hash : String → String) (now : Nat) (env : ExtractEnv)
    (st : DState) (url : String) (dur : Nat) : DispatchOutcome :=
  let res := download_tiktok hash now env st url
  if dur ≤ 25 then ⟨res.1, res.2⟩
  else ⟨.error "Timeout: Proses terlalu lama", res.2⟩

/-- Is `pat` a leading segment of `l`? (used to model Python's `in`). -/
def listPre : List Char → List Char → Bool
  | [], _ => true
  | _ :: _, [] => false
  | a :: as, b :: bs => a == b && listPre as bs

/-- Contiguous-substring test on code points: `hasSubstr s pat` is Python's
`pat in s` for strings. -/
def hasSubstr (s pat : String) : Bool :=
  go s.data
where
  go : List Char → Bool
    | [] => pat.data.isEmpty
    | l@(_ :: rest) => listPre pat.data l || go rest

/-- Python's `str.strip()`: remove leading and trailing whitespace
(structural recursion on the character list, so proofs can evaluate it;
`String.trim` in core is well-founded recursion, which cannot). -/
def pyStrip (s : String) : String :=
  ⟨((s.data.dropWhile Char.isWhitespace).reverse.dropWhile
      Char.isWhitespace).reverse⟩

/-- The POST branch of `index` (src/app.py lines 168-189):
`url = request.form.get("url", "").strip()`; an empty or non-`tiktok.com`
value yields the validation error with no work done; otherwise the bounded
dispatch runs.  The third component records whether extraction was
invoked. -/
def index_post (hash : String → String) (now : Nat) (env : ExtractEnv)
    (st : DState) (dur : Nat) (rawUrl : String) : Record × DState × Bool :=
  let url := pyStrip rawUrl
  if url.isEmpty || !hasSubstr url "tiktok.com" then
    (.error "URL TikTok tidak valid", st, false)
  else
    let d := dispatch hash now env st url dur
    (d.response, d.final, true)

/-! ## Theorems -/

/-- Helper: a successful `save_cache` write makes the record visible to a
`get_cached` lookup at any time less than 1800 s later. -/
theorem get_cached_after_save (hash : String → String) (st : DState)
    (url : String) (r : Record) (tw tl : Nat) (h : tl - tw < 1800) :
    get_cached hash tl (save_cache hash tw true st url r) url = some r := by
  unfold save_cache get_cached
  simp [h]

/-- Helper: `save_cache` never touches the download directory. -/
theorem save_cache_downloads (hash : String → String) (now : Nat) (w : Bool)
    (st : DState) (url : String) (r : Record) :
    (save_cache hash now w st url r).downloads = st.downloads := by
  unfold save_cache
  split <;> rfl

/-- Helper: the reaper loop keeps a young head file and continues. -/
theorem cleanupLoop_cons_young (now : Nat) (x : DFile) (l : List DFile)
    (h : ¬ x.mtime < now - 3600) :
    cleanupLoop now (x :: l) = x :: cleanupLoop now l := by
  simp [cleanupLoop, h]

/-- Helper: the shape of `download_tiktok` on a cache miss with a
successful extraction: the new media file is written, the reaper pass runs,
the cache is written, and the built record is returned. -/
theorem download_tiktok_success_eq (hash : String → String) (now : Nat)
    (info : Info) (nf : String) (w : Bool) (st : DState) (url : String)
    (hmiss : get_cached hash now st url = none) :
    download_tiktok hash now ⟨.ok info, nf, w⟩ st url =
      (buildData info nf,
       save_cache hash now w
         (cleanup_old_files now
           { st with downloads := ⟨nf, now, false⟩ :: st.downloads })
         url (buildData info nf)) := by
  unfold download_tiktok
  simp only [hmiss]

/-- Helper: when no removal fails, the reaper loop keeps exactly the files
that are not stale. -/
theorem cleanupLoop_mem (now : Nat) (l : List DFile)
    (h : ∀ f ∈ l, f.removeFails = false) (f : DFile) :
    f ∈ cleanupLoop now l ↔ f ∈ l ∧ ¬ f.mtime < now - 3600 := by
  induction l with
  | nil => simp [cleanupLoop]
  | cons g gs ih =>
    have hg : g.removeFails = false := h g (List.mem_cons_self g gs)
    have ih' := ih (fun x hx => h x (List.mem_cons_of_mem g hx))
    by_cases hold : g.mtime < now - 3600
    · have hstep : cleanupLoop now (g :: gs) = cleanupLoop now gs := by
        simp only [cleanupLoop]
        rw [if_pos hold, hg]
        simp only [Bool.false_eq_true, if_false]
      rw [hstep, ih', List.mem_cons]
      constructor
      · rintro ⟨hin, hy⟩
        exact ⟨Or.inr hin, hy⟩
      · rintro ⟨hin, hy⟩
        rcases hin with rfl | hin2
        · exact absurd hold hy
        · exact ⟨hin2, hy⟩
    · rw [cleanupLoop_cons_young now g gs hold]
      simp only [List.mem_cons, ih']
      constructor
      · rintro (rfl | ⟨hin, hy⟩)
        · exact ⟨Or.inl rfl, hold⟩
        · exact ⟨Or.inr hin, hy⟩
      · rintro ⟨hin, hy⟩
        rcases hin with rfl | hin2
        · exact Or.inl rfl
        · exact Or.inr ⟨hin2, hy⟩

/-- C1: if the cache file for a URL exists but its last-write timestamp is
1800 seconds or more in the past at lookup time, `get_cached` returns
`none`; and a stored record is returned only when `now - timestamp < 1800`. -/
theorem get_cached_ttl (hash : String → String) (now : Nat) (st : DState)
    (url : String) :
    (∀ e, st.cache (hash url) = some e → 1800 ≤ now - e.mtime →
      get_cached hash now st url = none) ∧
    (∀ r, get_cached hash now st url = some r →
      ∃ e, st.cache (hash url) = some e ∧ now - e.mtime < 1800 ∧
        e.content = .good r) := by
  constructor
  · intro e he hold
    unfold get_cached
    rw [he]
    simp only [if_neg (by omega : ¬ now - e.mtime < 1800)]
  · intro r hr
    unfold get_cached at hr
    split at hr
    · exact absurd hr (by simp)
    · rename_i e he
      split at hr
      · rename_i hlt
        split at hr
        · rename_i r2 hc
          exact ⟨e, he, hlt, by rw [hc, Option.some_inj.mp hr]⟩
        · exact absurd hr (by simp)
      · exact absurd hr (by simp)

theorem get_cached_ttl_witness :
    get_cached (fun s => s) 2000
      ⟨fun k => if k = "u" then some ⟨100, .good (.error "e")⟩ else none, []⟩
      "u" = none :=
  (get_cached_ttl (fun s => s) 2000
      ⟨fun k => if k = "u" then some ⟨100, .good (.error "e")⟩ else none, []⟩
      "u").1 ⟨100, .good (.error "e")⟩ (by simp) (by decide)

/-- C2: `save_cache url r` followed by `get_cached url` with no intervening
write and elapsed time below the 1800 s TTL returns exactly `r` (the write
itself succeeding, which is the store the claim speaks of). -/
theorem cache_round_trip (hash : String → String) (st : DState)
    (url : String) (r : Record) (tw tl : Nat) (h : tl - tw < 1800) :
    get_cached hash tl (save_cache hash tw true st url r) url = some r := by
  unfold save_cache get_cached
  simp [h]

theorem cache_round_trip_witness :
    get_cached (fun s => s) 1000
      (save_cache (fun s => s) 900 true ⟨fun _ => none, []⟩ "u" (.error "m"))
      "u" = some (.error "m") :=
  cache_round_trip (fun s => s) ⟨fun _ => none, []⟩ "u" (.error "m") 900 1000
    (by omega)

/-- C5: cache faults never surface — an unreadable or unparseable cache
file makes `get_cached` report a miss rather than an error, a failed cache
write leaves the filesystem state unchanged, and a failed cache write does
not alter the record returned by the primary extraction operation. -/
theorem cache_faults_internal :
    (∀ (hash : String → String) (now : Nat) (st : DState) (url : String) e,
      st.cache (hash url) = some e → e.content = .corrupt →
      get_cached hash now st url = none) ∧
    (∀ (hash : String → String) (now : Nat) (st : DState) (url : String) r,
      save_cache hash now false st url r = st) ∧
    (∀ (hash : String → String) (now : Nat) (o : ExtractOutcome)
      (nf : String) (st : DState) (url : String),
      (download_tiktok hash now ⟨o, nf, false⟩ st url).1 =
      (download_tiktok hash now ⟨o, nf, true⟩ st url).1) := by
  refine ⟨?_, ?_, ?_⟩
  · intro hash now st url e he hc
    unfold get_cached
    simp only [he, hc]
    split <;> rfl
  · intro hash now st url r
    unfold save_cache
    rfl
  · intro hash now o nf st url
    unfold download_tiktok
    cases hc : get_cached hash now st url with
    | some c => rfl
    | none =>
      cases o with
      | fail m => rfl
      | ok info => rfl

/-- C3 counterexample: the claim says 2300000 formats with the suffix "M"
("2.3M"), but `format_num` in the source renders the million suffix as
"Jt", so 2300000 formats to "2.3Jt". -/
theorem format_num_million_suffix_cex :
    format_num (.ofInt 2300000) = "2.3Jt" ∧
    format_num (.ofInt 2300000) ≠ "2.3M" := by
  constructor <;> decide

/-- C3 amended: the counter formatter maps values ≥ 1000000 to the value
scaled by 1/1000000 rendered with one decimal place and suffix "Jt" (not
"M"); values ≥ 1000 and < 1000000 to the value scaled by 1/1000 with one
decimal place and suffix "K"; other numeric values to the plain integer
string; non-numeric or missing input to "0".  In particular 999 formats to
"999", 1500 to "1.5K" and 2300000 to "2.3Jt". -/
theorem format_num_rule :
    format_num .nonNumeric = "0" ∧
    format_num (.ofInt 999) = "999" ∧
    format_num (.ofInt 1500) = "1.5K" ∧
    format_num (.ofInt 2300000) = "2.3Jt" ∧
    (∀ n : Int, 1000000 ≤ n →
      format_num (.ofInt n) = fmt1 (rhe (n.toNat * 10) 1000000) ++ "Jt") ∧
    (∀ n : Int, 1000 ≤ n → n < 1000000 →
      format_num (.ofInt n) = fmt1 (rhe (n.toNat * 10) 1000) ++ "K") ∧
    (∀ n : Int, n < 1000 → format_num (.ofInt n) = toString n) := by
  refine ⟨by decide, by decide, by decide, by decide, ?_, ?_, ?_⟩
  · intro n h
    simp only [format_num]
    rw [if_pos h]
  · intro n h1 h2
    simp only [format_num]
    rw [if_neg (by omega), if_pos h1]
  · intro n h
    simp only [format_num]
    rw [if_neg (by omega : ¬ 1000000 ≤ n), if_neg (by omega : ¬ 1000 ≤ n)]

theorem format_num_rule_witness :
    format_num (.ofInt 7200000) =
      fmt1 (rhe ((7200000 : Int).toNat * 10) 1000000) ++ "Jt" ∧
    format_num (.ofInt 4200) = fmt1 (rhe ((4200 : Int).toNat * 10) 1000) ++ "K" ∧
    format_num (.ofInt 37) = toString (37 : Int) :=
  ⟨format_num_rule.2.2.2.2.1 7200000 (by decide),
   format_num_rule.2.2.2.2.2.1 4200 (by decide) (by decide),
   format_num_rule.2.2.2.2.2.2 37 (by decide)⟩

set_option maxRecDepth 4000 in
/-- C4 counterexample: a failed extraction does not create a cache entry.
Starting from an empty cache, the fail outcome returns the error record yet
the state keeps no entry under the URL's fingerprint — the `except` branch
of `download_tiktok` returns before `save_cache` is ever called. -/
theorem failed_extraction_not_cached_cex :
    (download_tiktok (fun s => s) 1000 ⟨.fail "boom", "f.mp4", true⟩
      ⟨fun _ => none, []⟩ "u").1 = .error "Error: boom" ∧
    ((download_tiktok (fun s => s) 1000 ⟨.fail "boom", "f.mp4", true⟩
      ⟨fun _ => none, []⟩ "u").2).cache "u" = none := by
  constructor
  · rfl
  · rfl

/-- C4 amended: a cache entry is created on the first successful
extraction for a URL — a cache miss followed by a successful extraction
(with the write succeeding) stores the success record under the URL's
fingerprint — while a failed extraction returns an error record but stores
nothing: the filesystem state is left unchanged. -/
theorem cache_entry_creation (hash : String → String) (now : Nat)
    (nf : String) (st : DState) (url : String) :
    (∀ info, get_cached hash now st url = none →
      ((download_tiktok hash now ⟨.ok info, nf, true⟩ st url).2).cache
        (hash url) = some ⟨now, .good (buildData info nf)⟩) ∧
    (∀ msg, (download_tiktok hash now ⟨.fail msg, nf, true⟩ st url).2 = st) := by
  constructor
  · intro info hmiss
    unfold download_tiktok
    simp only [hmiss]
    unfold save_cache
    simp
  · intro msg
    unfold download_tiktok
    cases hc : get_cached hash now st url with
    | some c => simp only
    | none => simp only

theorem cache_entry_creation_witness :
    ((download_tiktok (fun s => s) 5
        ⟨.ok ⟨none, none, none, none, none, none, none, none, []⟩, "f.mp4", true⟩
        ⟨fun _ => none, []⟩ "u").2).cache "u" =
      some ⟨5, .good (buildData ⟨none, none, none, none, none, none, none, none, []⟩
        "f.mp4")⟩ :=
  (cache_entry_creation (fun s => s) 5 "f.mp4" ⟨fun _ => none, []⟩ "u").1
    ⟨none, none, none, none, none, none, none, none, []⟩ rfl

theorem cache_faults_internal_witness :
    get_cached (fun s => s) 50
      ⟨fun k => if k = "u" then some ⟨40, .corrupt⟩ else none, []⟩ "u" = none :=
  cache_faults_internal.1 (fun s => s) 50
    ⟨fun k => if k = "u" then some ⟨40, .corrupt⟩ else none, []⟩ "u"
    ⟨40, .corrupt⟩ (by simp) rfl

/-- C6 counterexample: a deletion failure does abort the scan.  With two
stale files where `os.remove` raises on the first, the reaper pass leaves
both in place — the second stale file is never examined, although the claim
says it would still be deleted. -/
theorem cleanup_abort_cex :
    cleanupLoop 10000 [⟨"a", 1, true⟩, ⟨"b", 2, false⟩] =
      [⟨"a", 1, true⟩, ⟨"b", 2, false⟩] ∧
    (⟨"b", 2, false⟩ : DFile).mtime < 10000 - 3600 := by
  constructor <;> decide

/-- C6 amended: during a reaper pass, the first deletion failure is caught
by the `try/except` wrapped around the whole loop and aborts the scan:
files listed before the failing one are processed normally, while the
failing file and every file after it are left in place unexamined, stale or
not. -/
theorem cleanup_failure_aborts (now : Nat) (l1 l2 : List DFile) (f : DFile)
    (h1 : ∀ g ∈ l1, ¬(g.mtime < now - 3600 ∧ g.removeFails = true))
    (h2 : f.mtime < now - 3600) (h3 : f.removeFails = true) :
    cleanupLoop now (l1 ++ f :: l2) = cleanupLoop now l1 ++ f :: l2 := by
  induction l1 with
  | nil =>
    simp only [List.nil_append, cleanupLoop]
    rw [if_pos h2, h3]
    simp
  | cons g gs ih =>
    have hg := h1 g (List.mem_cons_self g gs)
    have ih' := ih (fun x hx => h1 x (List.mem_cons_of_mem g hx))
    by_cases hold : g.mtime < now - 3600
    · have hrf : g.removeFails = false := by
        cases hb : g.removeFails
        · rfl
        · exact absurd ⟨hold, hb⟩ hg
      have hstep : ∀ l : List DFile, cleanupLoop now (g :: l) = cleanupLoop now l := by
        intro l
        simp only [cleanupLoop]
        rw [if_pos hold, hrf]
        simp only [Bool.false_eq_true, if_false]
      rw [List.cons_append, hstep, hstep, ih']
    · rw [List.cons_append, cleanupLoop_cons_young now g _ hold,
        cleanupLoop_cons_young now g gs hold, ih', List.cons_append]

theorem cleanup_failure_aborts_witness :
    cleanupLoop 10000
      ([⟨"x", 50, false⟩, ⟨"y", 9000, false⟩] ++ (⟨"a", 1, true⟩ : DFile) :: [⟨"b", 2, false⟩]) =
      cleanupLoop 10000 [⟨"x", 50, false⟩, ⟨"y", 9000, false⟩] ++
        (⟨"a", 1, true⟩ : DFile) :: [⟨"b", 2, false⟩] :=
  cleanup_failure_aborts 10000 [⟨"x", 50, false⟩, ⟨"y", 9000, false⟩]
    [⟨"b", 2, false⟩] ⟨"a", 1, true⟩ (by decide) (by decide) rfl

/-- C7: after a successful extraction (a cache miss with a successful
outcome, every removal succeeding), the cleanup pass deletes from the
download directory every file whose last-modified time is more than 3600 s
before now and retains every file whose age is below 3600 s. -/
theorem cleanup_after_success (hash : String → String) (now : Nat)
    (info : Info) (nf : String) (w : Bool) (st : DState) (url : String)
    (hmiss : get_cached hash now st url = none)
    (hok : ∀ f ∈ st.downloads, f.removeFails = false) :
    (∀ f ∈ st.downloads, 3600 < now - f.mtime →
      f ∉ (download_tiktok hash now ⟨.ok info, nf, w⟩ st url).2.downloads) ∧
    (∀ f ∈ st.downloads, now - f.mtime < 3600 →
      f ∈ (download_tiktok hash now ⟨.ok info, nf, w⟩ st url).2.downloads) := by
  have hdl : (download_tiktok hash now ⟨.ok info, nf, w⟩ st url).2.downloads =
      cleanupLoop now (⟨nf, now, false⟩ :: st.downloads) := by
    rw [download_tiktok_success_eq hash now info nf w st url hmiss]
    simp only [save_cache_downloads, cleanup_old_files]
  have hall : ∀ f ∈ (⟨nf, now, false⟩ : DFile) :: st.downloads,
      f.removeFails = false := by
    intro f hf
    rcases List.mem_cons.mp hf with rfl | hf2
    · rfl
    · exact hok f hf2
  constructor
  · intro f hf hage
    rw [hdl, cleanupLoop_mem now _ hall f]
    rintro ⟨-, hy⟩
    omega
  · intro f hf hage
    rw [hdl, cleanupLoop_mem now _ hall f]
    exact ⟨List.mem_cons_of_mem _ hf, by omega⟩

theorem cleanup_after_success_witness :
    (⟨"old.mp4", 100, false⟩ : DFile) ∉
      (download_tiktok (fun s => s) 10000
        ⟨.ok ⟨none, none, none, none, none, none, none, none, []⟩, "n.mp4", true⟩
        ⟨fun _ => none, [⟨"old.mp4", 100, false⟩, ⟨"young.mp4", 9500, false⟩]⟩
        "u").2.downloads ∧
    (⟨"young.mp4", 9500, false⟩ : DFile) ∈
      (download_tiktok (fun s => s) 10000
        ⟨.ok ⟨none, none, none, none, none, none, none, none, []⟩, "n.mp4", true⟩
        ⟨fun _ => none, [⟨"old.mp4", 100, false⟩, ⟨"young.mp4", 9500, false⟩]⟩
        "u").2.downloads :=
  ⟨(cleanup_after_success (fun s => s) 10000
      ⟨none, none, none, none, none, none, none, none, []⟩ "n.mp4" true
      ⟨fun _ => none, [⟨"old.mp4", 100, false⟩, ⟨"young.mp4", 9500, false⟩]⟩
      "u" rfl (by decide)).1 ⟨"old.mp4", 100, false⟩ (by decide) (by decide),
   (cleanup_after_success (fun s => s) 10000
      ⟨none, none, none, none, none, none, none, none, []⟩ "n.mp4" true
      ⟨fun _ => none, [⟨"old.mp4", 100, false⟩, ⟨"young.mp4", 9500, false⟩]⟩
      "u" rfl (by decide)).2 ⟨"young.mp4", 9500, false⟩ (by decide) (by decide)⟩

/-- C8: a submitted form value that is empty after stripping whitespace or
lacks the substring "tiktok.com" makes the POST handler answer with the
validation error record while the filesystem state is untouched and the
extraction is never invoked (third component `false`). -/
theorem index_post_validation (hash : String → String) (now : Nat)
    (env : ExtractEnv) (st : DState) (dur : Nat) (rawUrl : String)
    (h : (pyStrip rawUrl).isEmpty = true ∨
      hasSubstr (pyStrip rawUrl) "tiktok.com" = false) :
    index_post hash now env st dur rawUrl =
      (.error "URL TikTok tidak valid", st, false) := by
  unfold index_post
  rcases h with h | h
  · simp [h]
  · simp [h]

theorem index_post_validation_witness :
    index_post (fun s => s) 0 ⟨.fail "x", "f.mp4", true⟩ ⟨fun _ => none, []⟩ 0
      " https://example.com/video " =
      (.error "URL TikTok tidak valid", ⟨fun _ => none, []⟩, false) :=
  index_post_validation (fun s => s) 0 ⟨.fail "x", "f.mp4", true⟩
    ⟨fun _ => none, []⟩ 0 " https://example.com/video " (Or.inr (by decide))

/-- C9: when the extraction outlives the 25 s deadline, the handler gets
the synthesized timeout error record while the worker thread is not
cancelled: the eventual state is exactly the state `download_tiktok`
produces in the background, the produced media file is in the download
directory, and a later lookup for the same URL within the TTL sees the
record the background thread cached. -/
theorem dispatch_timeout (hash : String → String) (now : Nat) (info : Info)
    (nf : String) (st : DState) (url : String) (dur now2 : Nat)
    (hdur : 25 < dur)
    (hmiss : get_cached hash now st url = none)
    (httl : now2 - now < 1800) :
    (dispatch hash now ⟨.ok info, nf, true⟩ st url dur).response =
      .error "Timeout: Proses terlalu lama" ∧
    (dispatch hash now ⟨.ok info, nf, true⟩ st url dur).final =
      (download_tiktok hash now ⟨.ok info, nf, true⟩ st url).2 ∧
    nf ∈ ((dispatch hash now ⟨.ok info, nf, true⟩ st url dur).final).downloads.map
      DFile.name ∧
    get_cached hash now2
      ((dispatch hash now ⟨.ok info, nf, true⟩ st url dur).final) url =
      some (buildData info nf) := by
  have hne : ¬ dur ≤ 25 := by omega
  have hd : dispatch hash now ⟨.ok info, nf, true⟩ st url dur =
      ⟨.error "Timeout: Proses terlalu lama",
       (download_tiktok hash now ⟨.ok info, nf, true⟩ st url).2⟩ := by
    unfold dispatch
    simp only [if_neg hne]
  refine ⟨by rw [hd], by rw [hd], ?_, ?_⟩
  · rw [hd]
    show nf ∈
      ((download_tiktok hash now ⟨.ok info, nf, true⟩ st url).2).downloads.map
        DFile.name
    rw [download_tiktok_success_eq hash now info nf true st url hmiss]
    simp only [save_cache_downloads, cleanup_old_files]
    rw [cleanupLoop_cons_young now _ _ (by show ¬ now < now - 3600; omega)]
    exact List.mem_map_of_mem DFile.name (List.mem_cons_self _ _)
  · rw [hd]
    show get_cached hash now2
      (download_tiktok hash now ⟨.ok info, nf, true⟩ st url).2 url = _
    rw [download_tiktok_success_eq hash now info nf true st url hmiss]
    exact get_cached_after_save hash
      (cleanup_old_files now
        { st with downloads := ⟨nf, now, false⟩ :: st.downloads })
      url (buildData info nf) now now2 httl

theorem dispatch_timeout_witness :
    (dispatch (fun s => s) 100
      ⟨.ok ⟨none, none, none, none, none, none, none, none, []⟩, "n.mp4", true⟩
      ⟨fun _ => none, []⟩ "u" 999).response =
      .error "Timeout: Proses terlalu lama" ∧
    get_cached (fun s => s) 200
      ((dispatch (fun s => s) 100
        ⟨.ok ⟨none, none, none, none, none, none, none, none, []⟩, "n.mp4", true⟩
        ⟨fun _ => none, []⟩ "u" 999).final) "u" =
      some (buildData ⟨none, none, none, none, none, none, none, none, []⟩
        "n.mp4") :=
  ⟨(dispatch_timeout (fun s => s) 100
      ⟨none, none, none, none, none, none, none, none, []⟩ "n.mp4"
      ⟨fun _ => none, []⟩ "u" 999 200 (by omega) rfl (by omega)).1,
   (dispatch_timeout (fun s => s) 100
      ⟨none, none, none, none, none, none, none, none, []⟩ "n.mp4"
      ⟨fun _ => none, []⟩ "u" 999 200 (by omega) rfl (by omega)).2.2.2⟩

/-- C10: a valid (unexpired, parseable) cache hit short-circuits
`download_tiktok`: the cached record is returned and the filesystem state
is exactly the input state — no file is written, no cleanup pass runs, the
entry is not rewritten — so a hit never refreshes the entry's timestamp and
every later lookup behaves exactly as if the hit had not happened. -/
theorem download_tiktok_cache_hit (hash : String → String) (now : Nat)
    (env : ExtractEnv) (st : DState) (url : String) (c : Record)
    (h : get_cached hash now st url = some c) :
    download_tiktok hash now env st url = (c, st) ∧
    ∀ now2, get_cached hash now2 (download_tiktok hash now env st url).2 url =
      get_cached hash now2 st url := by
  have h1 : download_tiktok hash now env st url = (c, st) := by
    unfold download_tiktok
    simp only [h]
  exact ⟨h1, fun now2 => by rw [h1]⟩

theorem download_tiktok_cache_hit_witness :
    download_tiktok (fun s => s) 10 ⟨.fail "x", "f.mp4", true⟩
      ⟨fun k => if k = "u" then some ⟨0, .good (.error "m")⟩ else none, []⟩
      "u" =
      (.error "m",
       ⟨fun k => if k = "u" then some ⟨0, .good (.error "m")⟩ else none, []⟩) :=
  (download_tiktok_cache_hit (fun s => s) 10 ⟨.fail "x", "f.mp4", true⟩
    ⟨fun k => if k = "u" then some ⟨0, .good (.error "m")⟩ else none, []⟩
    "u" (.error "m") rfl).1

end TikTokApp
